import Mathlib

/-
  Verification of the mappingla client library (src/mappingla.py).

  The embedding models the module faithfully:
  * JSON values decoded by the json library are an inductive JValue;
    the decoder itself is an external library, so every operation that
    calls json.loads takes the decoder as an explicit parameter
    (loads : String -> Option JValue), none meaning a decode failure.
  * The network (urllib2.urlopen) is an explicit parameter of type
    Network := String -> HttpResponse: a body on success, or the
    exception urlopen raises (HTTPError with a status code, or another
    transport failure such as URLError).
  * The process wide cache mappingla._cache is threaded explicitly as an
    association list from URL to raw body, and every operation reports
    the list of URLs it actually requested over the network, so that
    at-most-once-fetch properties are statements about that list.
  * Python exceptions become the PyError sum type and results become
    Except PyError.
-/

set_option autoImplicit false

/- JSON values as produced by json.loads. Numbers are modelled as
   integers; no claim computes with numeric payloads. -/
inductive JValue where
  | null
  | bool (b : Bool)
  | num (n : Int)
  | str (s : String)
  | arr (elems : List JValue)
  | obj (fields : List (String × JValue))

/- Python dict lookup d.get(key) on a string-keyed dict, as an
   association list. -/
def assocGet {α : Type} : List (String × α) → String → Option α
  | [], _ => none
  | (k, v) :: rest, key => if k = key then some v else assocGet rest key

/- Python dict assignment d[key] = v: replace the first binding of the
   key, or append a new binding. -/
def assocSet {α : Type} : List (String × α) → String → α → List (String × α)
  | [], key, v => [(key, v)]
  | (k, w) :: rest, key, v =>
    if k = key then (k, v) :: rest else (k, w) :: assocSet rest key v

def assocGetD {α : Type} (d : List (String × α)) (key : String) (dflt : α) : α :=
  (assocGet d key).getD dflt

/- Python truthiness of a decoded JSON value: None, False, 0, empty
   string, empty list and empty dict are falsy. -/
def JValue.truthy : JValue → Bool
  | .null => false
  | .bool b => b
  | .num n => n != 0
  | .str s => s != ""
  | .arr elems => !elems.isEmpty
  | .obj fields => !fields.isEmpty

/- Truthiness of an optional string argument (slug): None and the empty
   string are falsy. -/
def optStrTruthy : Option String → Bool
  | none => false
  | some s => s != ""

/- Truthiness of an optional float argument (lat, lng), coordinates
   modelled as rationals: None and 0.0 are falsy. -/
def optRatTruthy : Option Rat → Bool
  | none => false
  | some q => q != 0

/- str() of a coordinate for urllib.urlencode. Python renders floats in
   decimal notation; the claims depend only on the rendering being a
   fixed deterministic function of the number, so the canonical Rat
   rendering stands in for the decimal digits. -/
def pyFloatStr (q : Rat) : String := toString q

/- Percent encoding as performed by urllib.urlencode (quote_plus with
   no extra safe characters): letters, digits, underscore, dot and
   hyphen pass through, space becomes +, every other character has each
   UTF-8 byte rendered as %XX with uppercase hex. -/
def hexUpper (n : Nat) : Char :=
  if n < 10 then Char.ofNat (48 + n) else Char.ofNat (55 + n)

def percentEncodeByte (b : UInt8) : List Char :=
  ['%', hexUpper (b.toNat / 16), hexUpper (b.toNat % 16)]

def alwaysSafe (c : Char) : Bool :=
  c.isAlphanum || c = '_' || c = '.' || c = '-'

def quotePlusChar (c : Char) : List Char :=
  if c = ' ' then ['+']
  else if alwaysSafe c then [c]
  else ((String.utf8EncodeChar c).map percentEncodeByte).flatten

def quote_plus (s : String) : String :=
  String.mk ((s.data.map quotePlusChar).flatten)

/- urllib.urlencode over the parameter map; the map is modelled as a
   list of pairs in the iteration order of the source dict literal. -/
def urlencode (params : List (String × String)) : String :=
  String.intercalate "&" (params.map fun kv => quote_plus kv.1 ++ "=" ++ quote_plus kv.2)

/- Python %-interpolation of a template over a string-keyed mapping,
   restricted to the %(name)s directives that BASE_URL uses. The
   scanner copies characters until it sees %(, collects the key up to
   )s, substitutes, and continues after the directive; substituted text
   is not rescanned, exactly like the one-pass scan of the Python
   operator. A key missing from the mapping raises KeyError in Python;
   the single call site (mappingla._makeurl) always supplies every key
   named by BASE_URL, so the default value of the lookup is unreachable
   there. -/
def pyFormatAux (m : List (String × String)) :
    Nat → Bool → List Char → List Char → List Char
  | 0, _, _, l => l
  | _ + 1, _, _, [] => []
  | fuel + 1, false, _, '%' :: '(' :: rest => pyFormatAux m fuel true [] rest
  | fuel + 1, false, _, c :: rest => c :: pyFormatAux m fuel false [] rest
  | fuel + 1, true, acc, ')' :: 's' :: rest =>
    (assocGetD m (String.mk acc.reverse) "").data ++ pyFormatAux m fuel false [] rest
  | fuel + 1, true, acc, c :: rest => pyFormatAux m fuel true (c :: acc) rest

/- The fuel argument only bounds the recursion; every step consumes at
   least one input character, so fuel equal to the template length never
   runs out. -/
def pyDictFormat (template : String) (m : List (String × String)) : String :=
  String.mk (pyFormatAux m template.data.length false [] template.data)

def mappingla.BASE_URL : String :=
  "http://projects.latimes.com/mapping-la/api/%(version)s/%(area_type)s/%(method)s.%(format)s"

/- mappingla._makeurl. The Python defaults version=v1 and format=json
   are passed explicitly by every caller in this embedding. params=None
   and params={} are both modelled by the empty list (both falsy). -/
def mappingla._makeurl (version : String) (area_type : String) (method : String)
    (format : String) (params : List (String × String)) : String :=
  let url := pyDictFormat mappingla.BASE_URL
    [("version", version), ("area_type", area_type), ("method", method), ("format", format)]
  if params.isEmpty then url else url ++ "?" ++ urlencode params

/- What urllib2.urlopen(url).read() can do: return the body of a
   successful response, raise urllib2.HTTPError with a status code, or
   raise another transport level exception (urllib2.URLError and
   friends). -/
inductive HttpResponse where
  | success (body : String)
  | httpError (code : Nat)
  | urlError (msg : String)

/- The network as a function from URL to outcome. -/
abbrev Network := String → HttpResponse

/- mappingla._cache: URLs are keys, raw response bodies are values. -/
abbrev Cache := List (String × String)

/- Python exceptions that the modelled code can raise. -/
inductive PyError where
  | geographyDoesNotExist (parameter : String)
  | httpError (code : Nat)
  | urlError (msg : String)
  | valueError (msg : String)
  | keyError (key : String)
  | typeError (msg : String)
  | attributeError (name : String)
  | jsonDecodeError

/- The message GeographyDoesNotExist is constructed with in
   mappingla._apicall. -/
def notFoundMessage : String := "The API data you requested could not be found."

/- The result of one mappingla._apicall: the returned body or the
   raised exception, the cache afterwards, and the URLs that were
   actually requested over the network (empty on a cache hit). -/
structure ApiCallRes where
  response : Except PyError String
  cache : Cache
  fetched : List String

/- The body of the try block of mappingla._apicall: fetch url, store
   the body in the cache on success, translate HTTPError 404 into
   GeographyDoesNotExist, re-raise any other HTTPError, and let any
   other transport error propagate. -/
def mappingla._apicall_fetch (net : Network) (cache : Cache) (url : String) : ApiCallRes :=
  match net url with
  | HttpResponse.success body =>
    ⟨Except.ok body, assocSet cache url body, [url]⟩
  | HttpResponse.httpError code =>
    if code = 404 then
      ⟨Except.error (PyError.geographyDoesNotExist notFoundMessage), cache, [url]⟩
    else
      ⟨Except.error (PyError.httpError code), cache, [url]⟩
  | HttpResponse.urlError msg =>
    ⟨Except.error (PyError.urlError msg), cache, [url]⟩

/- mappingla._apicall: build the URL, consult the cache with
   response = _cache.get(url, None), and refetch unless the cached
   value is truthy (note: the test is if not response, so an empty
   cached body does not count as a hit). -/
def mappingla._apicall (net : Network) (cache : Cache) (version area_type method format : String)
    (params : List (String × String)) : ApiCallRes :=
  let url := mappingla._makeurl version area_type method format params
  match assocGet cache url with
  | some r =>
    if r = "" then mappingla._apicall_fetch net cache url
    else ⟨Except.ok r, cache, []⟩
  | none => mappingla._apicall_fetch net cache url

/- Subscripting a decoded JSON value with a string key, d[key]:
   a KeyError on a dict without the key, a TypeError on anything that
   is not a dict. -/
def JValue.getItem : JValue → String → Except PyError JValue
  | JValue.obj fields, key =>
    match assocGet fields key with
    | some v => Except.ok v
    | none => Except.error (PyError.keyError key)
  | _, _ => Except.error (PyError.typeError "value is not subscriptable by a string key")

/- The two concrete classes derived from BaseGeographyObject. -/
inductive GeoClass where
  | neighborhood
  | region
deriving DecidableEq

/- BaseGeographyObject: __init__ assigns the decoded response dict
   directly as the instance __dict__, and everything the object later
   stores (the three mocked up URLs, the _cached_* slots) lives in the
   same dict. The class tag records which concrete subclass the object
   was constructed through. -/
structure BaseGeographyObject where
  cls : GeoClass
  dict : List (String × JValue)

/- Neighborhood(d): BaseGeographyObject.__init__ with the Neighborhood
   class. -/
def Neighborhood (d : List (String × JValue)) : BaseGeographyObject :=
  ⟨GeoClass.neighborhood, d⟩

/- Region(d). -/
def Region (d : List (String × JValue)) : BaseGeographyObject :=
  ⟨GeoClass.region, d⟩

/- Result of one lazy accessor call: the value returned or the
   exception raised, the object afterwards (its dict may have gained a
   _cached_* slot), and the URLs requested over the network. -/
structure LazyRes where
  result : Except PyError JValue
  obj : BaseGeographyObject
  fetched : List String

/- BaseGeographyObject._get_url: the cache attribute is
   _cached_<format>; it is refilled whenever its current value is
   missing or falsy (the test is if not getattr(self, attr, None)); on
   a fetch, a json body is parsed and its boundaries entry extracted
   before being stored; errors from urlopen propagate untranslated. -/
def BaseGeographyObject._get_url (loads : String → Option JValue) (net : Network)
    (self : BaseGeographyObject) (url : String) (format : String) : LazyRes :=
  let attr := "_cached_" ++ format
  let cur := assocGet self.dict attr
  if (match cur with | some v => v.truthy | none => false) = true then
    ⟨Except.ok (cur.getD JValue.null), self, []⟩
  else
    match net url with
    | HttpResponse.success body =>
      let parsed : Except PyError JValue :=
        if format = "json" then
          match loads body with
          | none => Except.error PyError.jsonDecodeError
          | some j => j.getItem "boundaries"
        else Except.ok (JValue.str body)
      match parsed with
      | Except.error e => ⟨Except.error e, self, [url]⟩
      | Except.ok v => ⟨Except.ok v, ⟨self.cls, assocSet self.dict attr v⟩, [url]⟩
    | HttpResponse.httpError code => ⟨Except.error (PyError.httpError code), self, [url]⟩
    | HttpResponse.urlError msg => ⟨Except.error (PyError.urlError msg), self, [url]⟩

/- The json property: self._get_url(self.json_url, json). Reading a
   missing json_url attribute raises AttributeError; urlopen on a non
   string value raises a TypeError. -/
def BaseGeographyObject.json (loads : String → Option JValue) (net : Network)
    (self : BaseGeographyObject) : LazyRes :=
  match assocGet self.dict "json_url" with
  | some (JValue.str u) => self._get_url loads net u "json"
  | some _ => ⟨Except.error (PyError.typeError "url must be a string"), self, []⟩
  | none => ⟨Except.error (PyError.attributeError "json_url"), self, []⟩

/- The kml property: self._get_url(self.kml_url, kml). -/
def BaseGeographyObject.kml (loads : String → Option JValue) (net : Network)
    (self : BaseGeographyObject) : LazyRes :=
  match assocGet self.dict "kml_url" with
  | some (JValue.str u) => self._get_url loads net u "kml"
  | some _ => ⟨Except.error (PyError.typeError "url must be a string"), self, []⟩
  | none => ⟨Except.error (PyError.attributeError "kml_url"), self, []⟩

/- The kmz property: self._get_url(self.kmz_url, kmz). -/
def BaseGeographyObject.kmz (loads : String → Option JValue) (net : Network)
    (self : BaseGeographyObject) : LazyRes :=
  match assocGet self.dict "kmz_url" with
  | some (JValue.str u) => self._get_url loads net u "kmz"
  | some _ => ⟨Except.error (PyError.typeError "url must be a string"), self, []⟩
  | none => ⟨Except.error (PyError.attributeError "kmz_url"), self, []⟩

/- GeographyDoesNotExist.__init__(self, value): stores its argument
   under the attribute named parameter in the instance dict. -/
def GeographyDoesNotExist.initDict (value : String) : List (String × JValue) :=
  [("parameter", JValue.str value)]

/- repr() of a value, as far as __str__ would need it (never reached on
   a GeographyDoesNotExist instance, see strMethod). -/
def pyRepr : JValue → String
  | JValue.null => "None"
  | JValue.bool b => if b then "True" else "False"
  | JValue.num n => toString n
  | JValue.str s => "'" ++ s ++ "'"
  | JValue.arr _ => "[...]"
  | JValue.obj _ => "..."

/- GeographyDoesNotExist.__str__(self): returns repr(self.value); the
   attribute lookup of value raises AttributeError when the instance
   dict has no such entry (neither the class nor Exception defines a
   value attribute). -/
def GeographyDoesNotExist.strMethod (self : List (String × JValue)) : Except PyError String :=
  match assocGet self "value" with
  | some v => Except.ok (pyRepr v)
  | none => Except.error (PyError.attributeError "value")

/- Result of mappingla._getall: the decoded value found under the
   plural key, the cache afterwards, and the URLs fetched. -/
structure GetAllRes where
  result : Except PyError JValue
  cache : Cache
  fetched : List String

/- mappingla._getall(area_type): call the API with the singular area
   type (area_type[:-1]) and method getList, then return
   json.loads(result)[area_type]. -/
def mappingla._getall (loads : String → Option JValue) (net : Network) (cache : Cache)
    (area_type : String) : GetAllRes :=
  let r := mappingla._apicall net cache "v1" (area_type.dropRight 1) "getList" "json" []
  match r.response with
  | Except.error e => ⟨Except.error e, r.cache, r.fetched⟩
  | Except.ok result =>
    match loads result with
    | none => ⟨Except.error PyError.jsonDecodeError, r.cache, r.fetched⟩
    | some j => ⟨j.getItem area_type, r.cache, r.fetched⟩

/- The list comprehension [ctor(i) for i in object_list]: each element
   must be a decoded dict, since BaseGeographyObject.__init__ assigns
   it as the instance __dict__ (a non dict raises TypeError; in Python
   iterating a non list value would also only yield non dict items and
   fail the same way). -/
def listComp (ctor : List (String × JValue) → BaseGeographyObject) :
    List JValue → Except PyError (List BaseGeographyObject)
  | [] => Except.ok []
  | JValue.obj d :: rest => (listComp ctor rest).map fun tail => ctor d :: tail
  | _ :: _ => Except.error (PyError.typeError "__dict__ must be set to a dictionary")

/- Result of an all() call. -/
structure CollectionRes where
  result : Except PyError (List BaseGeographyObject)
  cache : Cache
  fetched : List String

/- mappingla.neighborhoods.all(): _getall(neighborhoods), one
   Neighborhood per element. -/
def mappingla.neighborhoods.all (loads : String → Option JValue) (net : Network)
    (cache : Cache) : CollectionRes :=
  let r := mappingla._getall loads net cache "neighborhoods"
  match r.result with
  | Except.error e => ⟨Except.error e, r.cache, r.fetched⟩
  | Except.ok (JValue.arr object_list) => ⟨listComp Neighborhood object_list, r.cache, r.fetched⟩
  | Except.ok _ => ⟨Except.error (PyError.typeError "__dict__ must be set to a dictionary"), r.cache, r.fetched⟩

/- mappingla.regions.all(): _getall(regions), but the source builds
   Neighborhood(i), not Region(i), for each element. -/
def mappingla.regions.all (loads : String → Option JValue) (net : Network)
    (cache : Cache) : CollectionRes :=
  let r := mappingla._getall loads net cache "regions"
  match r.result with
  | Except.error e => ⟨Except.error e, r.cache, r.fetched⟩
  | Except.ok (JValue.arr object_list) => ⟨listComp Neighborhood object_list, r.cache, r.fetched⟩
  | Except.ok _ => ⟨Except.error (PyError.typeError "__dict__ must be set to a dictionary"), r.cache, r.fetched⟩

/- Result of a get() call. -/
structure GetRes where
  result : Except PyError BaseGeographyObject
  cache : Cache
  fetched : List String

/- The common tail of the four get bodies (the source repeats this
   block verbatim in each class): issue the API call with the chosen
   kwargs, build ctor(json.loads(response)), then mock up kml_url,
   kmz_url and json_url with _makeurl from the same kwargs with the
   format swapped. -/
def mappingla._getOne (loads : String → Option JValue) (net : Network) (cache : Cache)
    (ctor : List (String × JValue) → BaseGeographyObject)
    (area_type method : String) (params : List (String × String)) : GetRes :=
  let r := mappingla._apicall net cache "v1" area_type method "json" params
  match r.response with
  | Except.error e => ⟨Except.error e, r.cache, r.fetched⟩
  | Except.ok response =>
    match loads response with
    | none => ⟨Except.error PyError.jsonDecodeError, r.cache, r.fetched⟩
    | some (JValue.obj d) =>
      let obj := ctor d
      let obj : BaseGeographyObject := ⟨obj.cls, assocSet obj.dict "kml_url"
        (JValue.str (mappingla._makeurl "v1" area_type method "kml" params))⟩
      let obj : BaseGeographyObject := ⟨obj.cls, assocSet obj.dict "kmz_url"
        (JValue.str (mappingla._makeurl "v1" area_type method "kmz" params))⟩
      let obj : BaseGeographyObject := ⟨obj.cls, assocSet obj.dict "json_url"
        (JValue.str (mappingla._makeurl "v1" area_type method "json" params))⟩
      ⟨Except.ok obj, r.cache, r.fetched⟩
    | some _ => ⟨Except.error (PyError.typeError "__dict__ must be set to a dictionary"), r.cache, r.fetched⟩

/- The ValueError message of mappingla.neighborhoods.get: the source
   string literal uses backslash line continuations, so the twenty
   spaces indenting the continuation lines are part of the message. -/
def neighborhoodsGetMessage : String :=
  "You did not include a valid keyword " ++ "                    "
    ++ "argument. You must include either a slug, or a pair of " ++ "                    "
    ++ "lat and lng coordinates."

/- The ValueError message of mappingla.regions.get (with the validate
   typo of the source). -/
def regionsGetMessage : String :=
  "You did not include a validate keyword argument."

/- mappingla.neighborhoods.get(slug, lat, lng): if slug is truthy the
   slug addressing mode is chosen; otherwise, if lat and lng are both
   truthy, the coordinate mode; otherwise ValueError is raised before
   any API call. -/
def mappingla.neighborhoods.get (loads : String → Option JValue) (net : Network) (cache : Cache)
    (slug : Option String) (lat : Option Rat) (lng : Option Rat) : GetRes :=
  if optStrTruthy slug then
    mappingla._getOne loads net cache Neighborhood "neighborhood" "getBySlug"
      [("slug", slug.getD "")]
  else if optRatTruthy lat && optRatTruthy lng then
    mappingla._getOne loads net cache Neighborhood "neighborhood" "getByLatLng"
      [("lat", pyFloatStr (lat.getD 0)), ("lng", pyFloatStr (lng.getD 0))]
  else
    ⟨Except.error (PyError.valueError neighborhoodsGetMessage), cache, []⟩

/- mappingla.regions.get(slug, lat, lng): same structure, with the
   region area type, the Region class and its own error message. -/
def mappingla.regions.get (loads : String → Option JValue) (net : Network) (cache : Cache)
    (slug : Option String) (lat : Option Rat) (lng : Option Rat) : GetRes :=
  if optStrTruthy slug then
    mappingla._getOne loads net cache Region "region" "getBySlug"
      [("slug", slug.getD "")]
  else if optRatTruthy lat && optRatTruthy lng then
    mappingla._getOne loads net cache Region "region" "getByLatLng"
      [("lat", pyFloatStr (lat.getD 0)), ("lng", pyFloatStr (lng.getD 0))]
  else
    ⟨Except.error (PyError.valueError regionsGetMessage), cache, []⟩

/- Concrete fixtures used by the closed theorems below. -/

/- A network that answers every URL the same way. -/
def constNet (r : HttpResponse) : Network := fun _ => r

/- A json.loads stand-in defined by a finite table from raw bodies to
   decoded values; a body outside the table fails to decode. -/
def tableLoads (table : List (String × JValue)) : String → Option JValue :=
  fun s => assocGet table s

/- A decoder that is never consulted. -/
def noLoads : String → Option JValue := fun _ => none

/- Substring test used to state what an error message carries. -/
def strContains (s t : String) : Bool :=
  s.data.tails.any fun suffix => List.isPrefixOf t.data suffix

/- Decoder for the regions listing scenario: the raw body RB decodes to
   a listing with one region element. -/
def loadsListing : String → Option JValue :=
  tableLoads
    [("RB", JValue.obj [("regions", JValue.arr [JValue.obj [("name", JValue.str "Westside")]])])]

/- Decoder for the single-object get scenario: the raw body GB decodes
   to one entity dict. -/
def loadsGet : String → Option JValue :=
  tableLoads
    [("GB", JValue.obj [("name", JValue.str "Downtown"), ("slug", JValue.str "downtown")])]

/- An entity holding only its kml resource URL. -/
def entKml : BaseGeographyObject := Neighborhood [("kml_url", JValue.str "U")]

/- An entity holding only its json resource URL. -/
def entJson : BaseGeographyObject := Neighborhood [("json_url", JValue.str "U")]

/-
  Helper lemmas.
-/

theorem assocGet_assocSet_self {α : Type} (d : List (String × α)) (k : String) (v : α) :
    assocGet (assocSet d k v) k = some v := by
  induction d with
  | nil => simp [assocGet, assocSet]
  | cons hd tl ih =>
    obtain ⟨k2, w⟩ := hd
    by_cases hk : k2 = k
    · subst hk
      simp [assocGet, assocSet]
    · simp [assocGet, assocSet, hk, ih]

theorem assocGet_assocSet_ne {α : Type} (d : List (String × α)) (k key : String) (v : α)
    (h : k ≠ key) : assocGet (assocSet d k v) key = assocGet d key := by
  induction d with
  | nil => simp [assocGet, assocSet, h]
  | cons hd tl ih =>
    obtain ⟨k2, w⟩ := hd
    by_cases hk : k2 = k
    · subst hk
      simp [assocGet, assocSet, h]
    · simp only [assocSet, if_neg hk]
      by_cases hk2 : k2 = key
      · simp [assocGet, hk2]
      · simp [assocGet, hk2, ih]

/- On any failure of the fetch step, the cache is left untouched. -/
theorem apicall_fetch_error_cache (net : Network) (cache : Cache) (url : String) (e : PyError)
    (h : (mappingla._apicall_fetch net cache url).response = Except.error e) :
    (mappingla._apicall_fetch net cache url).cache = cache := by
  unfold mappingla._apicall_fetch at h ⊢
  revert h
  cases net url with
  | success body => intro h; simp at h
  | httpError code =>
    intro h
    split <;> first | (split <;> rfl) | simp_all
  | urlError msg => intro h; rfl

/- The interpolation of BASE_URL, with every key supplied, is plain
   concatenation of the segments around the four directives. -/
theorem pyDictFormat_BASE (v a m f : String) :
    pyDictFormat mappingla.BASE_URL
        [("version", v), ("area_type", a), ("method", m), ("format", f)]
      = "http://projects.latimes.com/mapping-la/api/"
          ++ (v ++ ("/" ++ (a ++ ("/" ++ (m ++ ("." ++ (f ++ ""))))))) := by
  obtain ⟨lv⟩ := v
  obtain ⟨la⟩ := a
  obtain ⟨lm⟩ := m
  obtain ⟨lf⟩ := f
  rfl

/- mappingla._makeurl always produces
   base/version/area_type/method.format, with the percent encoded query
   string appended exactly when params is nonempty. -/
theorem makeurl_shape (v a m f : String) (p : List (String × String)) :
    mappingla._makeurl v a m f p
      = "http://projects.latimes.com/mapping-la/api/" ++ v ++ "/" ++ a ++ "/" ++ m ++ "." ++ f
        ++ (if p.isEmpty then "" else "?" ++ urlencode p) := by
  apply String.ext
  simp [mappingla._makeurl, pyDictFormat_BASE, String.data_append]
  split
  · simp [String.data_append]
  · simp [String.data_append]

/- A cache miss reduces _apicall to the fetch step. -/
theorem apicall_of_miss (net : Network) (cache : Cache) (v a m f : String)
    (p : List (String × String))
    (hc : assocGet cache (mappingla._makeurl v a m f p) = none) :
    mappingla._apicall net cache v a m f p
      = mappingla._apicall_fetch net cache (mappingla._makeurl v a m f p) := by
  simp only [mappingla._apicall]
  rw [hc]

/- A truthy cache hit returns the cached body with no network access. -/
theorem apicall_of_hit (net : Network) (cache : Cache) (v a m f : String)
    (p : List (String × String)) (r : String)
    (hc : assocGet cache (mappingla._makeurl v a m f p) = some r) (hr : r ≠ "") :
    mappingla._apicall net cache v a m f p = ⟨Except.ok r, cache, []⟩ := by
  simp only [mappingla._apicall]
  rw [hc]
  simp [hr]

/- A falsy cache hit (the empty body) refetches. -/
theorem apicall_of_hit_empty (net : Network) (cache : Cache) (v a m f : String)
    (p : List (String × String))
    (hc : assocGet cache (mappingla._makeurl v a m f p) = some "") :
    mappingla._apicall net cache v a m f p
      = mappingla._apicall_fetch net cache (mappingla._makeurl v a m f p) := by
  simp only [mappingla._apicall]
  rw [hc]
  simp

/-- Claim C1, counterexample. The claim states that two fetches of the
same URL always perform exactly one network request, the second being
answered from the cache. For a URL whose response body is the empty
string this fails: the first call stores the empty body, but the cache
check tests truthiness (if not response), so the second call requests
the URL over the network again, two network requests in total. -/
theorem claim1_counterexample :
    (mappingla._apicall (constNet (HttpResponse.success "")) []
        "v1" "neighborhood" "getList" "json" []).fetched.length
      + (mappingla._apicall (constNet (HttpResponse.success ""))
          (mappingla._apicall (constNet (HttpResponse.success "")) []
            "v1" "neighborhood" "getList" "json" []).cache
          "v1" "neighborhood" "getList" "json" []).fetched.length = 2 := by
  rfl

/-- Claim C1, amended: for every URL whose successful response body is
nonempty, calling mappingla._apicall twice with the same parameters
performs exactly one network request; the first call stores the body in
the process wide cache under the URL, and the second call returns the
identical value from the cache with no network access. A URL whose body
is the empty string is excluded: the truthiness based cache check
refetches it (see the counterexample). -/
theorem claim1_theorem (net : Network) (cache : Cache) (v a m f : String)
    (p : List (String × String)) (body url : String)
    (hurl : url = mappingla._makeurl v a m f p)
    (hnet : net url = HttpResponse.success body)
    (hbody : body ≠ "")
    (hc : assocGet cache url = none) :
    mappingla._apicall net cache v a m f p
      = ⟨Except.ok body, assocSet cache url body, [url]⟩
    ∧ mappingla._apicall net (assocSet cache url body) v a m f p
      = ⟨Except.ok body, assocSet cache url body, []⟩ := by
  subst hurl
  constructor
  · rw [apicall_of_miss net cache v a m f p hc]
    unfold mappingla._apicall_fetch
    rw [hnet]
  · exact apicall_of_hit net (assocSet cache (mappingla._makeurl v a m f p) body) v a m f p body
      (assocGet_assocSet_self cache (mappingla._makeurl v a m f p) body) hbody

/-- Witness for claim C1 at a concrete input. -/
theorem claim1_witness :
    mappingla._apicall (constNet (HttpResponse.success "BODY")) []
        "v1" "neighborhood" "getList" "json" []
      = ⟨Except.ok "BODY",
         assocSet [] (mappingla._makeurl "v1" "neighborhood" "getList" "json" []) "BODY",
         [mappingla._makeurl "v1" "neighborhood" "getList" "json" []]⟩
    ∧ mappingla._apicall (constNet (HttpResponse.success "BODY"))
        (assocSet [] (mappingla._makeurl "v1" "neighborhood" "getList" "json" []) "BODY")
        "v1" "neighborhood" "getList" "json" []
      = ⟨Except.ok "BODY",
         assocSet [] (mappingla._makeurl "v1" "neighborhood" "getList" "json" []) "BODY",
         []⟩ :=
  claim1_theorem (constNet (HttpResponse.success "BODY")) [] "v1" "neighborhood" "getList" "json"
    [] "BODY" (mappingla._makeurl "v1" "neighborhood" "getList" "json" []) rfl rfl
    (by decide) rfl

/-- Claim C4: when a fetch ends in an HTTP 404, any other HTTP error, or
a transport error, the process wide response cache is left unchanged, so
no entry is inserted under the requested URL; the cache is mutated only
when the fetch succeeds. -/
theorem claim4_theorem (net : Network) (cache : Cache) (v a m f : String)
    (p : List (String × String)) (e : PyError)
    (h : (mappingla._apicall net cache v a m f p).response = Except.error e) :
    (mappingla._apicall net cache v a m f p).cache = cache
    ∧ assocGet (mappingla._apicall net cache v a m f p).cache (mappingla._makeurl v a m f p)
      = assocGet cache (mappingla._makeurl v a m f p) := by
  have hcc : (mappingla._apicall net cache v a m f p).cache = cache := by
    rcases hc : assocGet cache (mappingla._makeurl v a m f p) with _ | r
    · rw [apicall_of_miss net cache v a m f p hc] at h ⊢
      exact apicall_fetch_error_cache net cache (mappingla._makeurl v a m f p) e h
    · by_cases hr : r = ""
      · subst hr
        rw [apicall_of_hit_empty net cache v a m f p hc] at h ⊢
        exact apicall_fetch_error_cache net cache (mappingla._makeurl v a m f p) e h
      · rw [apicall_of_hit net cache v a m f p r hc hr] at h
        simp at h
  exact ⟨hcc, by rw [hcc]⟩

/-- Witness for claim C4 at a concrete input: a 404 response leaves the
empty cache empty. -/
theorem claim4_witness :
    (mappingla._apicall (constNet (HttpResponse.httpError 404)) []
        "v1" "neighborhood" "getBySlug" "json" [("slug", "downtown")]).cache = []
    ∧ assocGet (mappingla._apicall (constNet (HttpResponse.httpError 404)) []
          "v1" "neighborhood" "getBySlug" "json" [("slug", "downtown")]).cache
        (mappingla._makeurl "v1" "neighborhood" "getBySlug" "json" [("slug", "downtown")])
      = assocGet ([] : Cache)
        (mappingla._makeurl "v1" "neighborhood" "getBySlug" "json" [("slug", "downtown")]) :=
  claim4_theorem (constNet (HttpResponse.httpError 404)) [] "v1" "neighborhood" "getBySlug"
    "json" [("slug", "downtown")] (PyError.geographyDoesNotExist notFoundMessage) rfl

/-- Claim C3, counterexample. The claim states that on HTTP 404 the
raised GeographyDoesNotExist carries the requested identifying
parameter (the slug or coordinate pair). At the concrete input
slug=nonexistent the error is raised, but what it carries is the fixed
string notFoundMessage, which neither equals nor contains the slug. -/
theorem claim3_counterexample :
    (mappingla.neighborhoods.get noLoads (constNet (HttpResponse.httpError 404)) []
        (some "nonexistent") none none).result
      = Except.error (PyError.geographyDoesNotExist notFoundMessage)
    ∧ strContains notFoundMessage "nonexistent" = false
    ∧ notFoundMessage ≠ "nonexistent" := by
  refine ⟨rfl, by decide, by decide⟩

/-- Claim C3, amended: whenever an uncached API call returns HTTP 404,
the operation fails with GeographyDoesNotExist carrying the fixed
message notFoundMessage (not the requested slug or coordinate pair);
any other HTTP error propagates unchanged as the same HTTPError, and
any other transport error propagates unchanged. -/
theorem claim3_theorem (net : Network) (cache : Cache) (v a m f : String)
    (p : List (String × String)) (url : String)
    (hurl : url = mappingla._makeurl v a m f p)
    (hc : assocGet cache url = none) :
    (∀ code : Nat, net url = HttpResponse.httpError code →
       (mappingla._apicall net cache v a m f p).response
         = Except.error (if code = 404 then PyError.geographyDoesNotExist notFoundMessage
                         else PyError.httpError code))
    ∧ (∀ msg : String, net url = HttpResponse.urlError msg →
       (mappingla._apicall net cache v a m f p).response
         = Except.error (PyError.urlError msg)) := by
  subst hurl
  rw [apicall_of_miss net cache v a m f p hc]
  constructor
  · intro code hnet
    unfold mappingla._apicall_fetch
    rw [hnet]
    by_cases h4 : code = 404 <;> simp [h4]
  · intro msg hnet
    unfold mappingla._apicall_fetch
    rw [hnet]

/-- Witness for claim C3 at a concrete input: a 404 on an uncached URL
raises GeographyDoesNotExist with the fixed message. -/
theorem claim3_witness :
    (mappingla._apicall (constNet (HttpResponse.httpError 404)) []
        "v1" "neighborhood" "getBySlug" "json" [("slug", "downtown")]).response
      = Except.error (PyError.geographyDoesNotExist notFoundMessage) := by
  have h := (claim3_theorem (constNet (HttpResponse.httpError 404)) [] "v1" "neighborhood"
    "getBySlug" "json" [("slug", "downtown")]
    (mappingla._makeurl "v1" "neighborhood" "getBySlug" "json" [("slug", "downtown")])
    rfl rfl).1 404 rfl
  simpa using h

/-- Claim C7: whenever get() is called with both a nonempty slug and a
coordinate pair, the request resolves through the slug path, with the
singular area type, method getBySlug and a parameter map holding only
the slug; the call behaves identically to one where no coordinates were
passed, so the getByLatLng path is never taken. This holds for both
collections. -/
theorem claim7_theorem (loads : String → Option JValue) (net : Network) (cache : Cache)
    (s : String) (lat lng : Option Rat) (h : s ≠ "") :
    mappingla.neighborhoods.get loads net cache (some s) lat lng
      = mappingla._getOne loads net cache Neighborhood "neighborhood" "getBySlug" [("slug", s)]
    ∧ mappingla.neighborhoods.get loads net cache (some s) lat lng
      = mappingla.neighborhoods.get loads net cache (some s) none none
    ∧ mappingla.regions.get loads net cache (some s) lat lng
      = mappingla._getOne loads net cache Region "region" "getBySlug" [("slug", s)]
    ∧ mappingla.regions.get loads net cache (some s) lat lng
      = mappingla.regions.get loads net cache (some s) none none := by
  refine ⟨?_, ?_, ?_, ?_⟩ <;>
    simp [mappingla.neighborhoods.get, mappingla.regions.get, optStrTruthy, h]

/-- Witness for claim C7 at a concrete input. -/
theorem claim7_witness :
    mappingla.neighborhoods.get noLoads (constNet (HttpResponse.httpError 404)) []
        (some "downtown") (some 34) (some (-118))
      = mappingla._getOne noLoads (constNet (HttpResponse.httpError 404)) [] Neighborhood
          "neighborhood" "getBySlug" [("slug", "downtown")]
    ∧ mappingla.neighborhoods.get noLoads (constNet (HttpResponse.httpError 404)) []
        (some "downtown") (some 34) (some (-118))
      = mappingla.neighborhoods.get noLoads (constNet (HttpResponse.httpError 404)) []
          (some "downtown") none none
    ∧ mappingla.regions.get noLoads (constNet (HttpResponse.httpError 404)) []
        (some "downtown") (some 34) (some (-118))
      = mappingla._getOne noLoads (constNet (HttpResponse.httpError 404)) [] Region
          "region" "getBySlug" [("slug", "downtown")]
    ∧ mappingla.regions.get noLoads (constNet (HttpResponse.httpError 404)) []
        (some "downtown") (some 34) (some (-118))
      = mappingla.regions.get noLoads (constNet (HttpResponse.httpError 404)) []
          (some "downtown") none none :=
  claim7_theorem noLoads (constNet (HttpResponse.httpError 404)) [] "downtown"
    (some 34) (some (-118)) (by decide)

/-- Claim C8: whenever get() is called without a truthy slug and
without a pair of truthy coordinates, it raises ValueError with the
message of its class before making any API call: the cache is returned
unchanged and no URL is fetched. This holds for both collections. -/
theorem claim8_theorem (loads : String → Option JValue) (net : Network) (cache : Cache)
    (slug : Option String) (lat lng : Option Rat)
    (h1 : optStrTruthy slug = false)
    (h2 : (optRatTruthy lat && optRatTruthy lng) = false) :
    mappingla.neighborhoods.get loads net cache slug lat lng
      = ⟨Except.error (PyError.valueError neighborhoodsGetMessage), cache, []⟩
    ∧ mappingla.regions.get loads net cache slug lat lng
      = ⟨Except.error (PyError.valueError regionsGetMessage), cache, []⟩ := by
  constructor <;>
    simp [mappingla.neighborhoods.get, mappingla.regions.get, h1, h2]

/-- Witness for claim C8 at a concrete input: a falsy latitude (0, the
Python float 0.0 is falsy) with no slug fails fast. -/
theorem claim8_witness :
    mappingla.neighborhoods.get noLoads (constNet (HttpResponse.success "GB")) []
        none (some 0) (some 1)
      = ⟨Except.error (PyError.valueError neighborhoodsGetMessage), [], []⟩
    ∧ mappingla.regions.get noLoads (constNet (HttpResponse.success "GB")) []
        none (some 0) (some 1)
      = ⟨Except.error (PyError.valueError regionsGetMessage), [], []⟩ :=
  claim8_theorem noLoads (constNet (HttpResponse.success "GB")) [] none (some 0) (some 1)
    rfl rfl

/-- Claim C2, divergence of the code from the claim at a concrete
input. The claim states that regions.all() constructs one entity of the
Region variant per element of the array under the plural key. Against a
listing whose regions array holds one element, regions.all() returns a
list whose single entity was built by the Neighborhood constructor (the
source comprehension reads Neighborhood(i), not Region(i)), and the two
variants are distinct. -/
theorem claim2_theorem :
    (mappingla.regions.all loadsListing (constNet (HttpResponse.success "RB")) []).result
      = Except.ok [Neighborhood [("name", JValue.str "Westside")]]
    ∧ (Neighborhood [("name", JValue.str "Westside")]).cls = GeoClass.neighborhood
    ∧ (Region [("name", JValue.str "Westside")]).cls = GeoClass.region
    ∧ GeoClass.neighborhood ≠ GeoClass.region := by
  refine ⟨rfl, rfl, rfl, by decide⟩

/-- Claim C10: GeographyDoesNotExist.__init__ stores its argument under
the attribute named parameter, while __str__ reads the attribute named
value, which is never set, so converting the exception to a string
raises AttributeError instead of returning the stored identifier. -/
theorem claim10_theorem (v : String) :
    assocGet (GeographyDoesNotExist.initDict v) "parameter" = some (JValue.str v)
    ∧ GeographyDoesNotExist.strMethod (GeographyDoesNotExist.initDict v)
      = Except.error (PyError.attributeError "value") := by
  exact ⟨rfl, rfl⟩

/- A truthy cached slot answers _get_url without any fetch and without
   touching the object. -/
theorem get_url_hit (loads : String → Option JValue) (net : Network)
    (e : BaseGeographyObject) (url fmt : String) (v : JValue)
    (hcur : assocGet e.dict ("_cached_" ++ fmt) = some v) (hv : v.truthy = true) :
    e._get_url loads net url fmt = ⟨Except.ok v, e, []⟩ := by
  simp only [BaseGeographyObject._get_url]
  rw [hcur]
  simp [hv]

/- After a successful _get_url, the slot of this format holds the
   returned value. -/
theorem get_url_ok_cached (loads : String → Option JValue) (net : Network)
    (e : BaseGeographyObject) (url fmt : String) (v : JValue)
    (e1 : BaseGeographyObject) (fl : List String)
    (h : e._get_url loads net url fmt = ⟨Except.ok v, e1, fl⟩) :
    assocGet e1.dict ("_cached_" ++ fmt) = some v := by
  simp only [BaseGeographyObject._get_url] at h
  split at h
  · rename_i hcond
    rcases hcur : assocGet e.dict ("_cached_" ++ fmt) with _ | w
    · rw [hcur] at hcond
      simp at hcond
    · rw [hcur] at hcond h
      simp [LazyRes.mk.injEq] at h
      obtain ⟨hv1, he1, -⟩ := h
      subst he1
      rw [hcur, hv1]
  · split at h
    · split at h
      · simp at h
      · rename_i pv heq
        simp [LazyRes.mk.injEq] at h
        obtain ⟨hv1, he1, -⟩ := h
        subst he1
        simp [← hv1, assocGet_assocSet_self]
    · simp at h
    · simp at h

/- _get_url never touches the slots of other keys. -/
theorem get_url_dict_preserved (loads : String → Option JValue) (net : Network)
    (e : BaseGeographyObject) (url fmt key : String) (hkey : ¬("_cached_" ++ fmt) = key) :
    assocGet (e._get_url loads net url fmt).obj.dict key = assocGet e.dict key := by
  simp only [BaseGeographyObject._get_url]
  split
  · rfl
  · split
    · split
      · rfl
      · simp only []
        exact assocGet_assocSet_ne e.dict ("_cached_" ++ fmt) key _ hkey
    · rfl
    · rfl

/- _get_url requests at most its own URL. -/
theorem get_url_fetched (loads : String → Option JValue) (net : Network)
    (e : BaseGeographyObject) (url fmt : String) :
    (e._get_url loads net url fmt).fetched = []
    ∨ (e._get_url loads net url fmt).fetched = [url] := by
  simp only [BaseGeographyObject._get_url]
  split
  · left; rfl
  · split
    · split
      · right; rfl
      · right; rfl
    · right; rfl
    · right; rfl

/- Memoization of _get_url: a successful read with a truthy value makes
   every later read of the same format return that value with no fetch
   and no state change, whatever the network does by then. -/
theorem get_url_memo (loads : String → Option JValue) (net1 net2 : Network)
    (e : BaseGeographyObject) (url fmt : String) (v : JValue)
    (e1 : BaseGeographyObject) (fl : List String)
    (h : e._get_url loads net1 url fmt = ⟨Except.ok v, e1, fl⟩) (hv : v.truthy = true) :
    e1._get_url loads net2 url fmt = ⟨Except.ok v, e1, []⟩ :=
  get_url_hit loads net2 e1 url fmt v (get_url_ok_cached loads net1 e url fmt v e1 fl h) hv

/- _get_url keeps the resource URL attribute the accessor read, so a
   second read of the same accessor resolves the same URL. -/
theorem get_url_memo_with_url (loads : String → Option JValue) (net1 net2 : Network)
    (e : BaseGeographyObject) (url fmt urlkey : String) (v : JValue)
    (e1 : BaseGeographyObject) (fl : List String)
    (hurl : assocGet e.dict urlkey = some (JValue.str url))
    (hne : ¬("_cached_" ++ fmt) = urlkey)
    (h : e._get_url loads net1 url fmt = ⟨Except.ok v, e1, fl⟩) (hv : v.truthy = true) :
    assocGet e1.dict urlkey = some (JValue.str url)
    ∧ e1._get_url loads net2 url fmt = ⟨Except.ok v, e1, []⟩ := by
  constructor
  · have hp := get_url_dict_preserved loads net1 e url fmt urlkey hne
    rw [h] at hp
    rw [hp, hurl]
  · exact get_url_memo loads net1 net2 e url fmt v e1 fl h hv

/-- Claim C5, counterexample. The claim states that once a derived
field has been fetched, every later read returns the identical cached
value without a network call. After kml is fetched with an empty body,
the value is stored, yet a second read requests the URL again (the
memoization check tests truthiness) and returns whatever the network
now answers, here a different body. -/
theorem claim5_counterexample :
    entKml.kml noLoads (constNet (HttpResponse.success ""))
      = ⟨Except.ok (JValue.str ""),
         ⟨GeoClass.neighborhood, [("kml_url", JValue.str "U"), ("_cached_kml", JValue.str "")]⟩,
         ["U"]⟩
    ∧ (⟨GeoClass.neighborhood,
         [("kml_url", JValue.str "U"), ("_cached_kml", JValue.str "")]⟩ :
          BaseGeographyObject).kml noLoads (constNet (HttpResponse.success "NEW"))
      = ⟨Except.ok (JValue.str "NEW"),
         ⟨GeoClass.neighborhood, [("kml_url", JValue.str "U"), ("_cached_kml", JValue.str "NEW")]⟩,
         ["U"]⟩
    ∧ JValue.str "NEW" ≠ JValue.str "" := by
  refine ⟨rfl, rfl, by simp⟩

/-- Claim C5, amended: for every entity and each derived field (json,
kml, kmz), once the field has been read successfully with a truthy
value (in particular any nonempty body, or nonempty boundaries), every
later read of the same field returns the identical cached value, with
no network call and no state change, even if a fresh fetch of the
underlying URL would return a different body. A falsy fetched value
(e.g. an empty body) is excluded: the truthiness based memoization
check refetches it (see the counterexample). -/
theorem claim5_theorem (loads : String → Option JValue) (net1 net2 : Network)
    (e : BaseGeographyObject) (v : JValue) (e1 : BaseGeographyObject) (fl : List String) :
    (e.json loads net1 = ⟨Except.ok v, e1, fl⟩ → v.truthy = true →
       e1.json loads net2 = ⟨Except.ok v, e1, []⟩)
    ∧ (e.kml loads net1 = ⟨Except.ok v, e1, fl⟩ → v.truthy = true →
       e1.kml loads net2 = ⟨Except.ok v, e1, []⟩)
    ∧ (e.kmz loads net1 = ⟨Except.ok v, e1, fl⟩ → v.truthy = true →
       e1.kmz loads net2 = ⟨Except.ok v, e1, []⟩) := by
  refine ⟨?_, ?_, ?_⟩
  · intro h hv
    simp only [BaseGeographyObject.json] at h ⊢
    rcases hj : assocGet e.dict "json_url" with _ | ju
    · rw [hj] at h; simp at h
    · cases ju with
      | str u =>
        rw [hj] at h
        obtain ⟨h1, h2⟩ := get_url_memo_with_url loads net1 net2 e u "json" "json_url" v e1 fl
          hj (by decide) h hv
        rw [h1]
        exact h2
      | null => rw [hj] at h; simp at h
      | bool b => rw [hj] at h; simp at h
      | num n => rw [hj] at h; simp at h
      | arr l => rw [hj] at h; simp at h
      | obj fs => rw [hj] at h; simp at h
  · intro h hv
    simp only [BaseGeographyObject.kml] at h ⊢
    rcases hj : assocGet e.dict "kml_url" with _ | ju
    · rw [hj] at h; simp at h
    · cases ju with
      | str u =>
        rw [hj] at h
        obtain ⟨h1, h2⟩ := get_url_memo_with_url loads net1 net2 e u "kml" "kml_url" v e1 fl
          hj (by decide) h hv
        rw [h1]
        exact h2
      | null => rw [hj] at h; simp at h
      | bool b => rw [hj] at h; simp at h
      | num n => rw [hj] at h; simp at h
      | arr l => rw [hj] at h; simp at h
      | obj fs => rw [hj] at h; simp at h
  · intro h hv
    simp only [BaseGeographyObject.kmz] at h ⊢
    rcases hj : assocGet e.dict "kmz_url" with _ | ju
    · rw [hj] at h; simp at h
    · cases ju with
      | str u =>
        rw [hj] at h
        obtain ⟨h1, h2⟩ := get_url_memo_with_url loads net1 net2 e u "kmz" "kmz_url" v e1 fl
          hj (by decide) h hv
        rw [h1]
        exact h2
      | null => rw [hj] at h; simp at h
      | bool b => rw [hj] at h; simp at h
      | num n => rw [hj] at h; simp at h
      | arr l => rw [hj] at h; simp at h
      | obj fs => rw [hj] at h; simp at h

/-- Witness for claim C5 at a concrete input: after kml is fetched with
the truthy body BODY, a second read against a network that now answers
OTHER still returns BODY with no fetch. -/
theorem claim5_witness :
    (⟨GeoClass.neighborhood,
       [("kml_url", JValue.str "U"), ("_cached_kml", JValue.str "BODY")]⟩ :
        BaseGeographyObject).kml noLoads (constNet (HttpResponse.success "OTHER"))
      = ⟨Except.ok (JValue.str "BODY"),
         ⟨GeoClass.neighborhood, [("kml_url", JValue.str "U"), ("_cached_kml", JValue.str "BODY")]⟩,
         []⟩ :=
  (claim5_theorem noLoads (constNet (HttpResponse.success "BODY"))
      (constNet (HttpResponse.success "OTHER")) entKml (JValue.str "BODY")
      ⟨GeoClass.neighborhood, [("kml_url", JValue.str "U"), ("_cached_kml", JValue.str "BODY")]⟩
      ["U"]).2.1 rfl rfl

/- The json accessor leaves every dict entry other than _cached_json
   unchanged. -/
theorem json_dict_preserved (loads : String → Option JValue) (net : Network)
    (e : BaseGeographyObject) (key : String) (hkey : ¬("_cached_json" = key)) :
    assocGet (e.json loads net).obj.dict key = assocGet e.dict key := by
  simp only [BaseGeographyObject.json]
  split
  · exact get_url_dict_preserved loads net e _ "json" key hkey
  · rfl
  · rfl

/- The kml accessor leaves every dict entry other than _cached_kml
   unchanged. -/
theorem kml_dict_preserved (loads : String → Option JValue) (net : Network)
    (e : BaseGeographyObject) (key : String) (hkey : ¬("_cached_kml" = key)) :
    assocGet (e.kml loads net).obj.dict key = assocGet e.dict key := by
  simp only [BaseGeographyObject.kml]
  split
  · exact get_url_dict_preserved loads net e _ "kml" key hkey
  · rfl
  · rfl

/- The kmz accessor leaves every dict entry other than _cached_kmz
   unchanged. -/
theorem kmz_dict_preserved (loads : String → Option JValue) (net : Network)
    (e : BaseGeographyObject) (key : String) (hkey : ¬("_cached_kmz" = key)) :
    assocGet (e.kmz loads net).obj.dict key = assocGet e.dict key := by
  simp only [BaseGeographyObject.kmz]
  split
  · exact get_url_dict_preserved loads net e _ "kmz" key hkey
  · rfl
  · rfl

/- The json accessor fetches at most the URL stored in json_url. -/
theorem json_fetched (loads : String → Option JValue) (net : Network)
    (e : BaseGeographyObject) :
    (e.json loads net).fetched = []
    ∨ ∃ u, (e.json loads net).fetched = [u]
        ∧ assocGet e.dict "json_url" = some (JValue.str u) := by
  simp only [BaseGeographyObject.json]
  split
  · rename_i u heq
    rcases get_url_fetched loads net e u "json" with h | h
    · left; exact h
    · right; exact ⟨u, h, heq⟩
  · left; rfl
  · left; rfl

/- The kml accessor fetches at most the URL stored in kml_url. -/
theorem kml_fetched (loads : String → Option JValue) (net : Network)
    (e : BaseGeographyObject) :
    (e.kml loads net).fetched = []
    ∨ ∃ u, (e.kml loads net).fetched = [u]
        ∧ assocGet e.dict "kml_url" = some (JValue.str u) := by
  simp only [BaseGeographyObject.kml]
  split
  · rename_i u heq
    rcases get_url_fetched loads net e u "kml" with h | h
    · left; exact h
    · right; exact ⟨u, h, heq⟩
  · left; rfl
  · left; rfl

/- The kmz accessor fetches at most the URL stored in kmz_url. -/
theorem kmz_fetched (loads : String → Option JValue) (net : Network)
    (e : BaseGeographyObject) :
    (e.kmz loads net).fetched = []
    ∨ ∃ u, (e.kmz loads net).fetched = [u]
        ∧ assocGet e.dict "kmz_url" = some (JValue.str u) := by
  simp only [BaseGeographyObject.kmz]
  split
  · rename_i u heq
    rcases get_url_fetched loads net e u "kmz" with h | h
    · left; exact h
    · right; exact ⟨u, h, heq⟩
  · left; rfl
  · left; rfl

/-- Claim C6: the three lazy accessors each use their own memoization
slot. For every entity, reading json fetches at most the URL stored in
json_url and leaves the _cached_kml and _cached_kmz slots exactly as
they were, and symmetrically for kml and kmz. -/
theorem claim6_theorem (loads : String → Option JValue) (net : Network)
    (e : BaseGeographyObject) :
    (assocGet (e.json loads net).obj.dict "_cached_kml" = assocGet e.dict "_cached_kml"
     ∧ assocGet (e.json loads net).obj.dict "_cached_kmz" = assocGet e.dict "_cached_kmz"
     ∧ ((e.json loads net).fetched = []
        ∨ ∃ u, (e.json loads net).fetched = [u]
            ∧ assocGet e.dict "json_url" = some (JValue.str u)))
    ∧ (assocGet (e.kml loads net).obj.dict "_cached_json" = assocGet e.dict "_cached_json"
     ∧ assocGet (e.kml loads net).obj.dict "_cached_kmz" = assocGet e.dict "_cached_kmz"
     ∧ ((e.kml loads net).fetched = []
        ∨ ∃ u, (e.kml loads net).fetched = [u]
            ∧ assocGet e.dict "kml_url" = some (JValue.str u)))
    ∧ (assocGet (e.kmz loads net).obj.dict "_cached_json" = assocGet e.dict "_cached_json"
     ∧ assocGet (e.kmz loads net).obj.dict "_cached_kml" = assocGet e.dict "_cached_kml"
     ∧ ((e.kmz loads net).fetched = []
        ∨ ∃ u, (e.kmz loads net).fetched = [u]
            ∧ assocGet e.dict "kmz_url" = some (JValue.str u))) :=
  ⟨⟨json_dict_preserved loads net e "_cached_kml" (by decide),
    json_dict_preserved loads net e "_cached_kmz" (by decide),
    json_fetched loads net e⟩,
   ⟨kml_dict_preserved loads net e "_cached_json" (by decide),
    kml_dict_preserved loads net e "_cached_kmz" (by decide),
    kml_fetched loads net e⟩,
   ⟨kmz_dict_preserved loads net e "_cached_json" (by decide),
    kmz_dict_preserved loads net e "_cached_kml" (by decide),
    kmz_fetched loads net e⟩⟩

/- A truthy optional slug is a some of a nonempty string. -/
theorem optStrTruthy_eq_true (o : Option String) (h : optStrTruthy o = true) :
    ∃ s, o = some s ∧ s ≠ "" := by
  cases o with
  | none => simp [optStrTruthy] at h
  | some s =>
    refine ⟨s, rfl, ?_⟩
    simpa [optStrTruthy] using h

/- A truthy optional coordinate is a some of a nonzero number. -/
theorem optRatTruthy_eq_true (o : Option Rat) (h : optRatTruthy o = true) :
    ∃ q, o = some q ∧ q ≠ 0 := by
  cases o with
  | none => simp [optRatTruthy] at h
  | some q =>
    refine ⟨q, rfl, ?_⟩
    simpa [optRatTruthy] using h

/- A successful _getOne attaches the three resource URLs, built by
   _makeurl from the very same area type, method and params as the
   request, with only the format swapped. -/
theorem getOne_urls (loads : String → Option JValue) (net : Network) (cache : Cache)
    (ctor : List (String × JValue) → BaseGeographyObject)
    (area_type method : String) (params : List (String × String))
    (obj : BaseGeographyObject) (c : Cache) (fl : List String)
    (h : mappingla._getOne loads net cache ctor area_type method params
      = ⟨Except.ok obj, c, fl⟩) :
    assocGet obj.dict "kml_url"
      = some (JValue.str (mappingla._makeurl "v1" area_type method "kml" params))
    ∧ assocGet obj.dict "kmz_url"
      = some (JValue.str (mappingla._makeurl "v1" area_type method "kmz" params))
    ∧ assocGet obj.dict "json_url"
      = some (JValue.str (mappingla._makeurl "v1" area_type method "json" params)) := by
  simp only [mappingla._getOne] at h
  split at h
  · simp at h
  · split at h
    · simp at h
    · simp only [GetRes.mk.injEq, Except.ok.injEq] at h
      obtain ⟨hobj, -, -⟩ := h
      rw [← hobj]
      refine ⟨?_, ?_, ?_⟩
      · rw [assocGet_assocSet_ne _ _ _ _ (by decide),
          assocGet_assocSet_ne _ _ _ _ (by decide), assocGet_assocSet_self]
      · rw [assocGet_assocSet_ne _ _ _ _ (by decide), assocGet_assocSet_self]
      · rw [assocGet_assocSet_self]
    · simp at h

/-- Claim C9: every successful get() returns an entity whose kml_url,
kmz_url and json_url attributes were computed by _makeurl from exactly
the same version (v1), area type, method and params as the original
request, differing only in the format; and _makeurl is a function that
always produces base/version/area_type/method.format with the params
percent encoded as a query string. -/
theorem claim9_theorem (loads : String → Option JValue) (net : Network) (cache : Cache)
    (slug : Option String) (lat lng : Option Rat)
    (objN : BaseGeographyObject) (cN : Cache) (fN : List String)
    (objR : BaseGeographyObject) (cR : Cache) (fR : List String) :
    (mappingla.neighborhoods.get loads net cache slug lat lng = ⟨Except.ok objN, cN, fN⟩ →
      ∃ method params,
        ((∃ s, slug = some s ∧ s ≠ "" ∧ method = "getBySlug" ∧ params = [("slug", s)])
         ∨ (optStrTruthy slug = false ∧ method = "getByLatLng"
            ∧ ∃ la ln, lat = some la ∧ lng = some ln ∧ la ≠ 0 ∧ ln ≠ 0
              ∧ params = [("lat", pyFloatStr la), ("lng", pyFloatStr ln)]))
        ∧ assocGet objN.dict "kml_url"
          = some (JValue.str (mappingla._makeurl "v1" "neighborhood" method "kml" params))
        ∧ assocGet objN.dict "kmz_url"
          = some (JValue.str (mappingla._makeurl "v1" "neighborhood" method "kmz" params))
        ∧ assocGet objN.dict "json_url"
          = some (JValue.str (mappingla._makeurl "v1" "neighborhood" method "json" params)))
    ∧ (mappingla.regions.get loads net cache slug lat lng = ⟨Except.ok objR, cR, fR⟩ →
      ∃ method params,
        ((∃ s, slug = some s ∧ s ≠ "" ∧ method = "getBySlug" ∧ params = [("slug", s)])
         ∨ (optStrTruthy slug = false ∧ method = "getByLatLng"
            ∧ ∃ la ln, lat = some la ∧ lng = some ln ∧ la ≠ 0 ∧ ln ≠ 0
              ∧ params = [("lat", pyFloatStr la), ("lng", pyFloatStr ln)]))
        ∧ assocGet objR.dict "kml_url"
          = some (JValue.str (mappingla._makeurl "v1" "region" method "kml" params))
        ∧ assocGet objR.dict "kmz_url"
          = some (JValue.str (mappingla._makeurl "v1" "region" method "kmz" params))
        ∧ assocGet objR.dict "json_url"
          = some (JValue.str (mappingla._makeurl "v1" "region" method "json" params)))
    ∧ (∀ (v a m f : String) (p : List (String × String)),
        mappingla._makeurl v a m f p
          = "http://projects.latimes.com/mapping-la/api/" ++ v ++ "/" ++ a ++ "/" ++ m
            ++ "." ++ f ++ (if p.isEmpty then "" else "?" ++ urlencode p)) := by
  refine ⟨?_, ?_, fun v a m f p => makeurl_shape v a m f p⟩
  · intro h
    by_cases hs : optStrTruthy slug = true
    · obtain ⟨s, hslug, hs2⟩ := optStrTruthy_eq_true slug hs
      subst hslug
      simp only [mappingla.neighborhoods.get, hs, if_pos, Option.getD_some] at h
      exact ⟨"getBySlug", [("slug", s)], Or.inl ⟨s, rfl, hs2, rfl, rfl⟩,
        getOne_urls loads net cache Neighborhood "neighborhood" "getBySlug" [("slug", s)]
          objN cN fN h⟩
    · by_cases hl : (optRatTruthy lat && optRatTruthy lng) = true
      · rw [Bool.and_eq_true] at hl
        obtain ⟨la, hla, hla2⟩ := optRatTruthy_eq_true lat hl.1
        obtain ⟨ln, hln, hln2⟩ := optRatTruthy_eq_true lng hl.2
        subst hla hln
        simp only [mappingla.neighborhoods.get, hs, Bool.false_eq_true, if_neg, hl.1, hl.2,
          Bool.and_self, if_pos, Option.getD_some] at h
        refine ⟨"getByLatLng", [("lat", pyFloatStr la), ("lng", pyFloatStr ln)],
          Or.inr ⟨by simpa using hs, rfl, la, ln, rfl, rfl, hla2, hln2, rfl⟩,
          getOne_urls loads net cache Neighborhood "neighborhood" "getByLatLng"
            [("lat", pyFloatStr la), ("lng", pyFloatStr ln)] objN cN fN h⟩
      · exfalso
        simp only [mappingla.neighborhoods.get, hs, Bool.false_eq_true, if_neg, hl,
          GetRes.mk.injEq] at h
        simp at h
  · intro h
    by_cases hs : optStrTruthy slug = true
    · obtain ⟨s, hslug, hs2⟩ := optStrTruthy_eq_true slug hs
      subst hslug
      simp only [mappingla.regions.get, hs, if_pos, Option.getD_some] at h
      exact ⟨"getBySlug", [("slug", s)], Or.inl ⟨s, rfl, hs2, rfl, rfl⟩,
        getOne_urls loads net cache Region "region" "getBySlug" [("slug", s)]
          objR cR fR h⟩
    · by_cases hl : (optRatTruthy lat && optRatTruthy lng) = true
      · rw [Bool.and_eq_true] at hl
        obtain ⟨la, hla, hla2⟩ := optRatTruthy_eq_true lat hl.1
        obtain ⟨ln, hln, hln2⟩ := optRatTruthy_eq_true lng hl.2
        subst hla hln
        simp only [mappingla.regions.get, hs, Bool.false_eq_true, if_neg, hl.1, hl.2,
          Bool.and_self, if_pos, Option.getD_some] at h
        refine ⟨"getByLatLng", [("lat", pyFloatStr la), ("lng", pyFloatStr ln)],
          Or.inr ⟨by simpa using hs, rfl, la, ln, rfl, rfl, hla2, hln2, rfl⟩,
          getOne_urls loads net cache Region "region" "getByLatLng"
            [("lat", pyFloatStr la), ("lng", pyFloatStr ln)] objR cR fR h⟩
      · exfalso
        simp only [mappingla.regions.get, hs, Bool.false_eq_true, if_neg, hl,
          GetRes.mk.injEq] at h
        simp at h

/-- Witness for claim C9 at a concrete input: a successful slug get for
each collection, plus one instance of the URL shape. -/
theorem claim9_witness :
    (∃ method params,
      ((∃ s, (some "downtown" : Option String) = some s ∧ s ≠ ""
          ∧ method = "getBySlug" ∧ params = [("slug", s)])
       ∨ (optStrTruthy (some "downtown") = false ∧ method = "getByLatLng"
          ∧ ∃ la ln, (none : Option Rat) = some la ∧ (none : Option Rat) = some ln
            ∧ la ≠ 0 ∧ ln ≠ 0 ∧ params = [("lat", pyFloatStr la), ("lng", pyFloatStr ln)]))
      ∧ assocGet (⟨GeoClass.neighborhood,
          [("name", JValue.str "Downtown"), ("slug", JValue.str "downtown"),
           ("kml_url", JValue.str "http://projects.latimes.com/mapping-la/api/v1/neighborhood/getBySlug.kml?slug=downtown"),
           ("kmz_url", JValue.str "http://projects.latimes.com/mapping-la/api/v1/neighborhood/getBySlug.kmz?slug=downtown"),
           ("json_url", JValue.str "http://projects.latimes.com/mapping-la/api/v1/neighborhood/getBySlug.json?slug=downtown")]⟩
          : BaseGeographyObject).dict "kml_url"
        = some (JValue.str (mappingla._makeurl "v1" "neighborhood" method "kml" params))
      ∧ assocGet (⟨GeoClass.neighborhood,
          [("name", JValue.str "Downtown"), ("slug", JValue.str "downtown"),
           ("kml_url", JValue.str "http://projects.latimes.com/mapping-la/api/v1/neighborhood/getBySlug.kml?slug=downtown"),
           ("kmz_url", JValue.str "http://projects.latimes.com/mapping-la/api/v1/neighborhood/getBySlug.kmz?slug=downtown"),
           ("json_url", JValue.str "http://projects.latimes.com/mapping-la/api/v1/neighborhood/getBySlug.json?slug=downtown")]⟩
          : BaseGeographyObject).dict "kmz_url"
        = some (JValue.str (mappingla._makeurl "v1" "neighborhood" method "kmz" params))
      ∧ assocGet (⟨GeoClass.neighborhood,
          [("name", JValue.str "Downtown"), ("slug", JValue.str "downtown"),
           ("kml_url", JValue.str "http://projects.latimes.com/mapping-la/api/v1/neighborhood/getBySlug.kml?slug=downtown"),
           ("kmz_url", JValue.str "http://projects.latimes.com/mapping-la/api/v1/neighborhood/getBySlug.kmz?slug=downtown"),
           ("json_url", JValue.str "http://projects.latimes.com/mapping-la/api/v1/neighborhood/getBySlug.json?slug=downtown")]⟩
          : BaseGeographyObject).dict "json_url"
        = some (JValue.str (mappingla._makeurl "v1" "neighborhood" method "json" params)))
    ∧ (∃ method params,
      ((∃ s, (some "downtown" : Option String) = some s ∧ s ≠ ""
          ∧ method = "getBySlug" ∧ params = [("slug", s)])
       ∨ (optStrTruthy (some "downtown") = false ∧ method = "getByLatLng"
          ∧ ∃ la ln, (none : Option Rat) = some la ∧ (none : Option Rat) = some ln
            ∧ la ≠ 0 ∧ ln ≠ 0 ∧ params = [("lat", pyFloatStr la), ("lng", pyFloatStr ln)]))
      ∧ assocGet (⟨GeoClass.region,
          [("name", JValue.str "Downtown"), ("slug", JValue.str "downtown"),
           ("kml_url", JValue.str "http://projects.latimes.com/mapping-la/api/v1/region/getBySlug.kml?slug=downtown"),
           ("kmz_url", JValue.str "http://projects.latimes.com/mapping-la/api/v1/region/getBySlug.kmz?slug=downtown"),
           ("json_url", JValue.str "http://projects.latimes.com/mapping-la/api/v1/region/getBySlug.json?slug=downtown")]⟩
          : BaseGeographyObject).dict "kml_url"
        = some (JValue.str (mappingla._makeurl "v1" "region" method "kml" params))
      ∧ assocGet (⟨GeoClass.region,
          [("name", JValue.str "Downtown"), ("slug", JValue.str "downtown"),
           ("kml_url", JValue.str "http://projects.latimes.com/mapping-la/api/v1/region/getBySlug.kml?slug=downtown"),
           ("kmz_url", JValue.str "http://projects.latimes.com/mapping-la/api/v1/region/getBySlug.kmz?slug=downtown"),
           ("json_url", JValue.str "http://projects.latimes.com/mapping-la/api/v1/region/getBySlug.json?slug=downtown")]⟩
          : BaseGeographyObject).dict "kmz_url"
        = some (JValue.str (mappingla._makeurl "v1" "region" method "kmz" params))
      ∧ assocGet (⟨GeoClass.region,
          [("name", JValue.str "Downtown"), ("slug", JValue.str "downtown"),
           ("kml_url", JValue.str "http://projects.latimes.com/mapping-la/api/v1/region/getBySlug.kml?slug=downtown"),
           ("kmz_url", JValue.str "http://projects.latimes.com/mapping-la/api/v1/region/getBySlug.kmz?slug=downtown"),
           ("json_url", JValue.str "http://projects.latimes.com/mapping-la/api/v1/region/getBySlug.json?slug=downtown")]⟩
          : BaseGeographyObject).dict "json_url"
        = some (JValue.str (mappingla._makeurl "v1" "region" method "json" params)))
    ∧ mappingla._makeurl "v1" "neighborhood" "getBySlug" "kml" [("slug", "downtown")]
      = "http://projects.latimes.com/mapping-la/api/" ++ "v1" ++ "/" ++ "neighborhood"
        ++ "/" ++ "getBySlug" ++ "." ++ "kml"
        ++ (if ([("slug", "downtown")] : List (String × String)).isEmpty then ""
            else "?" ++ urlencode [("slug", "downtown")]) :=
  ⟨(claim9_theorem loadsGet (constNet (HttpResponse.success "GB")) []
      (some "downtown") none none
      ⟨GeoClass.neighborhood,
        [("name", JValue.str "Downtown"), ("slug", JValue.str "downtown"),
         ("kml_url", JValue.str "http://projects.latimes.com/mapping-la/api/v1/neighborhood/getBySlug.kml?slug=downtown"),
         ("kmz_url", JValue.str "http://projects.latimes.com/mapping-la/api/v1/neighborhood/getBySlug.kmz?slug=downtown"),
         ("json_url", JValue.str "http://projects.latimes.com/mapping-la/api/v1/neighborhood/getBySlug.json?slug=downtown")]⟩
      [("http://projects.latimes.com/mapping-la/api/v1/neighborhood/getBySlug.json?slug=downtown", "GB")]
      ["http://projects.latimes.com/mapping-la/api/v1/neighborhood/getBySlug.json?slug=downtown"]
      ⟨GeoClass.region,
        [("name", JValue.str "Downtown"), ("slug", JValue.str "downtown"),
         ("kml_url", JValue.str "http://projects.latimes.com/mapping-la/api/v1/region/getBySlug.kml?slug=downtown"),
         ("kmz_url", JValue.str "http://projects.latimes.com/mapping-la/api/v1/region/getBySlug.kmz?slug=downtown"),
         ("json_url", JValue.str "http://projects.latimes.com/mapping-la/api/v1/region/getBySlug.json?slug=downtown")]⟩
      [("http://projects.latimes.com/mapping-la/api/v1/region/getBySlug.json?slug=downtown", "GB")]
      ["http://projects.latimes.com/mapping-la/api/v1/region/getBySlug.json?slug=downtown"]).1 rfl,
   (claim9_theorem loadsGet (constNet (HttpResponse.success "GB")) []
      (some "downtown") none none
      ⟨GeoClass.neighborhood,
        [("name", JValue.str "Downtown"), ("slug", JValue.str "downtown"),
         ("kml_url", JValue.str "http://projects.latimes.com/mapping-la/api/v1/neighborhood/getBySlug.kml?slug=downtown"),
         ("kmz_url", JValue.str "http://projects.latimes.com/mapping-la/api/v1/neighborhood/getBySlug.kmz?slug=downtown"),
         ("json_url", JValue.str "http://projects.latimes.com/mapping-la/api/v1/neighborhood/getBySlug.json?slug=downtown")]⟩
      [("http://projects.latimes.com/mapping-la/api/v1/neighborhood/getBySlug.json?slug=downtown", "GB")]
      ["http://projects.latimes.com/mapping-la/api/v1/neighborhood/getBySlug.json?slug=downtown"]
      ⟨GeoClass.region,
        [("name", JValue.str "Downtown"), ("slug", JValue.str "downtown"),
         ("kml_url", JValue.str "http://projects.latimes.com/mapping-la/api/v1/region/getBySlug.kml?slug=downtown"),
         ("kmz_url", JValue.str "http://projects.latimes.com/mapping-la/api/v1/region/getBySlug.kmz?slug=downtown"),
         ("json_url", JValue.str "http://projects.latimes.com/mapping-la/api/v1/region/getBySlug.json?slug=downtown")]⟩
      [("http://projects.latimes.com/mapping-la/api/v1/region/getBySlug.json?slug=downtown", "GB")]
      ["http://projects.latimes.com/mapping-la/api/v1/region/getBySlug.json?slug=downtown"]).2.1 rfl,
   (claim9_theorem loadsGet (constNet (HttpResponse.success "GB")) []
      (some "downtown") none none
      ⟨GeoClass.neighborhood,
        [("name", JValue.str "Downtown"), ("slug", JValue.str "downtown"),
         ("kml_url", JValue.str "http://projects.latimes.com/mapping-la/api/v1/neighborhood/getBySlug.kml?slug=downtown"),
         ("kmz_url", JValue.str "http://projects.latimes.com/mapping-la/api/v1/neighborhood/getBySlug.kmz?slug=downtown"),
         ("json_url", JValue.str "http://projects.latimes.com/mapping-la/api/v1/neighborhood/getBySlug.json?slug=downtown")]⟩
      [("http://projects.latimes.com/mapping-la/api/v1/neighborhood/getBySlug.json?slug=downtown", "GB")]
      ["http://projects.latimes.com/mapping-la/api/v1/neighborhood/getBySlug.json?slug=downtown"]
      ⟨GeoClass.region,
        [("name", JValue.str "Downtown"), ("slug", JValue.str "downtown"),
         ("kml_url", JValue.str "http://projects.latimes.com/mapping-la/api/v1/region/getBySlug.kml?slug=downtown"),
         ("kmz_url", JValue.str "http://projects.latimes.com/mapping-la/api/v1/region/getBySlug.kmz?slug=downtown"),
         ("json_url", JValue.str "http://projects.latimes.com/mapping-la/api/v1/region/getBySlug.json?slug=downtown")]⟩
      [("http://projects.latimes.com/mapping-la/api/v1/region/getBySlug.json?slug=downtown", "GB")]
      ["http://projects.latimes.com/mapping-la/api/v1/region/getBySlug.json?slug=downtown"]).2.2
     "v1" "neighborhood" "getBySlug" "kml" [("slug", "downtown")]⟩
